import Mathlib

/-!
Shallow embedding of the multi-agent decision core of the active-travel
repository: the four specialist agents (Health and Recovery, Golf Operations,
Budget Control, Transport and Logistics) and the Travel Experience Agent
orchestrator, translated from the TypeScript sources
(src/agents/base-agent.ts, health-recovery-agent.ts, golf-operations-agent.ts,
budget-control-agent.ts, transport-logistics-agent.ts,
travel-experience-agent.ts).

Modelling conventions:
- TypeScript numbers are rationals.  Optional context fields are `Option`.
- JavaScript truthiness is embedded explicitly where the source relies on it
  (for a number, `undefined` and `0` are falsy; for a string, `undefined` and
  the empty string are falsy).
- The audit snapshot `inputSignals : Record<string, any>` is embedded as an
  association list of JSON-like values (`SVal`).
- Agents are pure functions; the orchestrator returns `Except String`, with
  `Promise.all` rejection embedded as left-to-right `Except` propagation in
  the array order health, golf, budget, transport.
-/

namespace ActiveTravel

/-- JSON-like values used for the `inputSignals` audit snapshot
(`Record<string, any>` in the source). -/
inductive SVal where
  | undef
  | null
  | bool (b : Bool)
  | num (q : ℚ)
  | str (s : String)
  | arr (xs : List SVal)
  | obj (fs : List (String × SVal))

/-- The four priority levels of the shared recommendation contract. -/
inductive Priority where
  | low
  | medium
  | high
  | critical
deriving DecidableEq, BEq

/-- String rendering of a priority, as it appears in serialized output. -/
def Priority.toStr : Priority → String
  | .low => "low"
  | .medium => "medium"
  | .high => "high"
  | .critical => "critical"

/-- The shared `AgentRecommendation` output contract (base-agent.ts). -/
structure AgentRecommendation where
  decision : String
  rationale : String
  inputSignals : List (String × SVal)
  outputActions : List String
  approvalRequired : Bool
  priority : Priority

/-- Rendering of a rational as the source renders an integral number in a
template string.  Non-integral values are rendered as a fraction; the agents
only interpolate integral values in practice. -/
def numToString (q : ℚ) : String :=
  if q.den = 1 then toString q.num else toString q.num ++ "/" ++ toString q.den

/-- Rendering of a possibly-undefined number inside a template string
(JavaScript renders `undefined` as the word undefined). -/
def optNumToString : Option ℚ → String
  | some q => numToString q
  | none => "undefined"

/-- Rendering of a possibly-undefined string inside a template string. -/
def optStrRender : Option String → String
  | some s => s
  | none => "undefined"

/-- One-decimal rendering used for `toFixed(1)` in the budget agent. -/
def toFixed1 (q : ℚ) : String :=
  let scaled : ℤ := Rat.floor (q * 10 + 1 / 2)
  toString (scaled / 10) ++ "." ++ toString (scaled % 10).natAbs

/-- JavaScript truthiness of a possibly-absent number: `undefined` and `0`
are falsy. -/
def numTruthy : Option ℚ → Bool
  | none => false
  | some q => decide (q ≠ 0)

/-- JavaScript truthiness of a possibly-absent string: `undefined` and the
empty string are falsy. -/
def strTruthy : Option String → Bool
  | none => false
  | some s => decide (s ≠ "")

/-- JavaScript comparison `x < b` where an absent `x` compares false. -/
def optLt (x : Option ℚ) (b : ℚ) : Bool :=
  match x with
  | none => false
  | some q => decide (q < b)

/-- JavaScript comparison `x > b` where an absent `x` compares false. -/
def optGt (x : Option ℚ) (b : ℚ) : Bool :=
  match x with
  | none => false
  | some q => decide (q > b)

/-- JavaScript comparison `x >= b` where an absent `x` compares false. -/
def optGe (x : Option ℚ) (b : ℚ) : Bool :=
  match x with
  | none => false
  | some q => decide (q ≥ b)

/-- JavaScript strict equality `x === b` where an absent `x` compares false. -/
def optEq (x : Option ℚ) (b : ℚ) : Bool :=
  match x with
  | none => false
  | some q => decide (q = b)

/-- Decides whether `pat` is a prefix of `hay`, over character lists. -/
def charsStartWith : List Char → List Char → Bool
  | [], _ => true
  | _ :: _, [] => false
  | c :: cs, h :: hs => c == h && charsStartWith cs hs

/-- Decides whether `pat` occurs as a contiguous substring of `hay`, over
character lists. -/
def charsHasSub (pat : List Char) : List Char → Bool
  | [] => pat.isEmpty
  | h :: hs => charsStartWith pat (h :: hs) || charsHasSub pat hs

/-- Embedding of `hay.includes(pat)` on strings. -/
def strIncludes (hay pat : String) : Bool :=
  charsHasSub pat.data hay.data

/-- Embedding of `s.toLowerCase()` (the locations and keywords involved are
ASCII, where `Char.toLower` agrees with JavaScript). -/
def strToLower (s : String) : String :=
  ⟨s.data.map Char.toLower⟩

/-- Association of an `SVal` to a possibly-absent number. -/
def optNumSVal : Option ℚ → SVal
  | none => .undef
  | some q => .num q

/-- Association of an `SVal` to a possibly-absent string. -/
def optStrSVal : Option String → SVal
  | none => .undef
  | some s => .str s

/-- Shared constructor for recommendations (base-agent.ts
`createRecommendation`; the source defaults `approvalRequired` to `false`
and `priority` to `medium` when omitted, which call sites below pass
explicitly). -/
def createRecommendation (decision rationale : String)
    (inputSignals : List (String × SVal)) (outputActions : List String)
    (approvalRequired : Bool) (priority : Priority) : AgentRecommendation :=
  { decision := decision
    rationale := rationale
    inputSignals := inputSignals
    outputActions := outputActions
    approvalRequired := approvalRequired
    priority := priority }

/-- Embedding of `BaseAgent.validateContext` over a dynamic context bag: a
required field is missing exactly when it is absent as a key (the check is
`!(field in context)`, so a key present with an `undefined` or `null` value
passes). -/
def hasKey (bag : List (String × SVal)) (k : String) : Bool :=
  bag.any (fun p => p.1 == k)

/-- Validation result of `BaseAgent.validateContext`: an error naming the
agent and the missing fields when some required key is absent. -/
def validateContext (agentName : String) (bag : List (String × SVal))
    (requiredFields : List String) : Except String Unit :=
  let missing := requiredFields.filter (fun f => !(hasKey bag f))
  if missing.length > 0 then
    .error (agentName ++ " missing required context fields: " ++
      String.intercalate ", " missing)
  else
    .ok ()

/-- Wellness profile fields read by the health agent (the schema carries
further fields that no agent reads). -/
structure WellnessProfile where
  stepsTarget : ℚ
  mobilityLevel : String

/-- Planned activity descriptor handed to the health agent. -/
structure PlannedActivity where
  type : String
  physicalLoad : String
  estimatedSteps : Option ℚ

/-- Optional environmental stress flags of the health context. -/
structure EnvironmentalStress where
  heat : Option Bool
  humidity : Option Bool
  travel : Option Bool

namespace HealthRecoveryAgent

/-- Typed health agent context (health-recovery-agent.ts).  The required
fields `tripId`, `userId`, `date` and `consecutiveActiveDays` are structure
fields, so the presence check of `validateContext` always succeeds here; its
key-presence semantics is verified separately on the dynamic bag model. -/
structure Context where
  tripId : String
  userId : String
  date : String
  sleepQuality : Option ℚ
  energyRating : Option ℚ
  consecutiveActiveDays : ℚ
  environmentalStress : Option EnvironmentalStress
  wellnessProfile : Option WellnessProfile
  plannedActivity : Option PlannedActivity

/-- Typed form of the signal snapshot assembled by `collectSignals`. -/
structure Signals where
  sleepQuality : Option ℚ
  energyRating : Option ℚ
  consecutiveActiveDays : ℚ
  environmentalStress : Option EnvironmentalStress
  mobilityLevel : Option String
  stepsTarget : ℚ
  plannedSteps : Option ℚ
  physicalLoad : Option String

/-- Embedding of `collectSignals`.  The `|| 8000` fallback on `stepsTarget`
also replaces an explicit `0` (JavaScript truthiness). -/
def collectSignals (ctx : Context) : Signals :=
  { sleepQuality := ctx.sleepQuality
    energyRating := ctx.energyRating
    consecutiveActiveDays := ctx.consecutiveActiveDays
    environmentalStress := ctx.environmentalStress
    mobilityLevel := ctx.wellnessProfile.map (·.mobilityLevel)
    stepsTarget :=
      match ctx.wellnessProfile with
      | some wp => if wp.stepsTarget = 0 then 8000 else wp.stepsTarget
      | none => 8000
    plannedSteps := ctx.plannedActivity.bind (·.estimatedSteps)
    physicalLoad := ctx.plannedActivity.map (·.physicalLoad) }

/-- Rendering of the environmental stress flags into the audit snapshot;
only keys present in the object appear. -/
def envStressSVal (e : EnvironmentalStress) : SVal :=
  .obj ((match e.heat with | some b => [("heat", SVal.bool b)] | none => []) ++
    (match e.humidity with | some b => [("humidity", SVal.bool b)] | none => []) ++
    (match e.travel with | some b => [("travel", SVal.bool b)] | none => []))

/-- Rendering of the health signals into the audit snapshot, in the key
order of `collectSignals`. -/
def signalsSVal (s : Signals) : List (String × SVal) :=
  [("sleepQuality", optNumSVal s.sleepQuality),
   ("energyRating", optNumSVal s.energyRating),
   ("consecutiveActiveDays", .num s.consecutiveActiveDays),
   ("environmentalStress",
     match s.environmentalStress with
     | some e => envStressSVal e
     | none => .undef),
   ("mobilityLevel", optStrSVal s.mobilityLevel),
   ("stepsTarget", .num s.stepsTarget),
   ("plannedSteps", optNumSVal s.plannedSteps),
   ("physicalLoad", optStrSVal s.physicalLoad)]

/-- Embedding of `requiresFullRestDay`, including the truthiness guards of
the source (`signals.sleepQuality && signals.sleepQuality < 3` is false when
the field is absent or zero). -/
def requiresFullRestDay (s : Signals) : Bool :=
  (numTruthy s.sleepQuality && optLt s.sleepQuality 3) ||
  (numTruthy s.energyRating && optLt s.energyRating 2) ||
  decide (s.consecutiveActiveDays ≥ 5)

/-- Embedding of `recommendFullRestDay`. -/
def recommendFullRestDay (s : Signals) : AgentRecommendation :=
  let reasons :=
    (if numTruthy s.sleepQuality && optLt s.sleepQuality 3 then
      ["poor sleep quality (" ++ optNumToString s.sleepQuality ++ "/5)"] else []) ++
    (if numTruthy s.energyRating && optLt s.energyRating 2 then
      ["critically low energy (" ++ optNumToString s.energyRating ++ "/5)"] else []) ++
    (if s.consecutiveActiveDays ≥ 5 then
      [numToString s.consecutiveActiveDays ++ " consecutive active days"] else [])
  createRecommendation
    "Cancel all planned activities - full rest day required"
    ("Recovery day needed due to: " ++ String.intercalate ", " reasons ++
      ". Traveler well-being requires complete rest to prevent burnout and maintain trip enjoyment.")
    (signalsSVal s)
    ["Cancel all scheduled activities for the day",
     "Schedule spa or massage treatment",
     "Allow sleeping in without alarm",
     "Light pool or lounge time only",
     "Early dinner and bedtime"]
    true
    .critical

/-- Embedding of `requiresActivityModeration`. -/
def requiresActivityModeration (s : Signals) (ctx : Context) : Bool :=
  match ctx.plannedActivity with
  | none => false
  | some _ =>
    (numTruthy s.plannedSteps && optGt s.plannedSteps s.stepsTarget) ||
    (decide (s.physicalLoad = some "high") && numTruthy s.energyRating &&
      optLt s.energyRating 4) ||
    (decide (s.consecutiveActiveDays ≥ 3) && decide (s.physicalLoad = some "high"))

/-- Embedding of `recommendActivityModeration`. -/
def recommendActivityModeration (s : Signals) (ctx : Context) : AgentRecommendation :=
  let substitutions :=
    (if numTruthy s.plannedSteps && optGt s.plannedSteps s.stepsTarget then
      ["Reduce walking to <" ++ numToString s.stepsTarget ++ " steps",
       "Consider private car for longer distances",
       "Schedule midday rest break"] else []) ++
    (if (ctx.plannedActivity.map (·.type)) = some "cultural" then
      ["Select seated cultural experience (theater, tea ceremony)",
       "Avoid walking tours",
       "Choose venue with climate control"] else [])
  createRecommendation
    "Moderate planned activity to reduce physical load"
    ("Current activity plan exceeds recommended load for energy level " ++
      optNumToString s.energyRating ++ "/5 after " ++
      numToString s.consecutiveActiveDays ++ " consecutive active days.")
    (signalsSVal s)
    substitutions
    true
    .high

/-- Embedding of `shouldInsertWellnessActivity`. -/
def shouldInsertWellnessActivity (s : Signals) : Bool :=
  decide (s.consecutiveActiveDays ≥ 3) ||
  (numTruthy s.energyRating && optEq s.energyRating 3) ||
  (numTruthy s.sleepQuality && optEq s.sleepQuality 3)

/-- Embedding of `recommendWellnessActivity`. -/
def recommendWellnessActivity (s : Signals) : AgentRecommendation :=
  createRecommendation
    "Insert wellness activity into schedule"
    "Proactive recovery recommended to maintain energy levels and prevent fatigue accumulation."
    (signalsSVal s)
    ["Schedule 60-90 minute spa treatment",
     "Afternoon pool or relaxation time",
     "Early evening with no commitments",
     "Light, digestible dinner",
     "Ensure 8+ hours sleep opportunity"]
    false
    .medium

/-- Embedding of `HealthRecoveryAgent.analyze`: the top-down decision
ladder.  The `riskLevel` computed in the source only feeds logging and is
not part of the returned value. -/
def analyze (ctx : Context) : AgentRecommendation :=
  let signals := collectSignals ctx
  if requiresFullRestDay signals then
    recommendFullRestDay signals
  else if requiresActivityModeration signals ctx then
    recommendActivityModeration signals ctx
  else if shouldInsertWellnessActivity signals then
    recommendWellnessActivity signals
  else
    createRecommendation
      "Proceed with planned activities"
      "Health indicators are within acceptable ranges. No intervention required."
      (signalsSVal signals)
      []
      false
      .low

end HealthRecoveryAgent

/-- Golf course descriptor consumed by the golf agent. -/
structure GolfCourse where
  name : String
  travelTime : ℚ
  difficulty : String
  climate : String

/-- Weather forecast fields of the golf context. -/
structure GolfWeather where
  condition : String
  temperature : ℚ
  humidity : ℚ
  rainfall : Option ℚ

/-- Opaque golf round record; the golf agent only reads the count of recent
rounds. -/
inductive GolfRound where
  | mk

namespace GolfOperationsAgent

/-- Typed golf agent context (golf-operations-agent.ts). -/
structure Context where
  tripId : String
  userId : String
  date : String
  location : String
  recentRounds : Option (List GolfRound)
  energyLevel : Option ℚ
  weatherForecast : Option GolfWeather
  consecutiveGolfDays : ℚ
  availableCourses : List GolfCourse

/-- The fixed preferred-repeat course list of the source. -/
def PREFERRED_REPEAT_COURSES : List String :=
  ["Ba Na Hills Golf Club", "Montgomerie Links Vietnam"]

/-- Embedding of `isVietnamLocation`: case-insensitive substring match
against the recognized Vietnam city list. -/
def isVietnamLocation (location : String) : Bool :=
  (["hanoi", "da nang", "hoi an", "ho chi minh", "saigon"] : List String).any
    (fun city => strIncludes (strToLower location) city)

/-- Typed form of the signal snapshot assembled by `collectSignals`. -/
structure Signals where
  consecutiveGolfDays : ℚ
  energyLevel : Option ℚ
  weather : Option GolfWeather
  recentRounds : ℚ
  location : String

/-- Embedding of `collectSignals` (`recentRounds?.length || 0`). -/
def collectSignals (ctx : Context) : Signals :=
  { consecutiveGolfDays := ctx.consecutiveGolfDays
    energyLevel := ctx.energyLevel
    weather := ctx.weatherForecast
    recentRounds :=
      match ctx.recentRounds with
      | some rs => (rs.length : ℚ)
      | none => 0
    location := ctx.location }

/-- Rendering of the weather object into the audit snapshot (the optional
`rainfall` key appears only when present). -/
def weatherSVal (w : GolfWeather) : SVal :=
  .obj ([("condition", SVal.str w.condition),
         ("temperature", SVal.num w.temperature),
         ("humidity", SVal.num w.humidity)] ++
    (match w.rainfall with | some r => [("rainfall", SVal.num r)] | none => []))

/-- Rendering of the golf signals into the audit snapshot. -/
def signalsSVal (s : Signals) : List (String × SVal) :=
  [("consecutiveGolfDays", .num s.consecutiveGolfDays),
   ("energyLevel", optNumSVal s.energyLevel),
   ("weather", match s.weather with | some w => weatherSVal w | none => .undef),
   ("recentRounds", .num s.recentRounds),
   ("location", .str s.location)]

/-- Embedding of `shouldSkipGolf`. -/
def shouldSkipGolf (s : Signals) : Bool :=
  (decide (s.consecutiveGolfDays ≥ 1) && numTruthy s.energyLevel &&
    optLt s.energyLevel 4) ||
  decide (s.consecutiveGolfDays ≥ 2)

/-- Embedding of `recommendSkipGolf`; the rationale/action pair reproduces
the two `if`/`else if` mutations of the source. -/
def recommendSkipGolf (s : Signals) : AgentRecommendation :=
  let ra :=
    if s.consecutiveGolfDays ≥ 2 then
      (numToString s.consecutiveGolfDays ++
        " consecutive golf days exceeds safe physical load. Recovery day needed to prevent joint strain and fatigue.",
       ["Cancel planned golf round", "Insert recovery day",
        "Schedule spa or massage treatment"])
    else if numTruthy s.energyLevel && optLt s.energyLevel 4 then
      ("Energy level " ++ optNumToString s.energyLevel ++
        "/5 is too low for golf after playing yesterday. Risk of poor performance and reduced enjoyment.",
       ["Cancel planned golf round", "Insert recovery day",
        "Consider practice range or short game only (optional)"])
    else
      ("", ["Cancel planned golf round", "Insert recovery day"])
  createRecommendation
    "Skip golf - force recovery day"
    ra.1
    (signalsSVal s)
    ra.2
    true
    .high

/-- Embedding of `shouldSubstituteCourse`, with the truthiness guard on the
optional `rainfall`. -/
def shouldSubstituteCourse (s : Signals) : Bool :=
  match s.weather with
  | none => false
  | some w =>
    (match w.rainfall with
     | some r => decide (r ≠ 0) && decide (r > 10)
     | none => false) ||
    decide (w.temperature > 35) ||
    (decide (w.temperature > 32) && decide (w.humidity > 80))

/-- Embedding of `recommendCourseSubstitution`.  The agent only reaches it
with a present weather forecast (the guard in `analyze`); on an absent
forecast the source would fault on a property access, embedded here as the
same recommendation shell with empty rationale and actions. -/
def recommendCourseSubstitution (s : Signals) (ctx : Context) : AgentRecommendation :=
  let ra :=
    match s.weather with
    | none => ("", ([] : List String))
    | some w =>
      if (match w.rainfall with
          | some r => decide (r ≠ 0) && decide (r > 10)
          | none => false) then
        ("Heavy rain forecast - course conditions will be poor",
         ["Convert to spa day or cultural activity",
          "Reschedule golf to later in week"])
      else if w.temperature > 35 then
        match ctx.availableCourses.find? (fun (c : GolfCourse) => strIncludes c.name "Ba Na Hills") with
        | some baNaHills =>
          ("High heat forecast (" ++ numToString w.temperature ++
            "°C) - mountain course preferred",
           ["Substitute to " ++ baNaHills.name ++ " (cooler mountain climate)",
            "Earlier tee time (before 8am)"])
        | none =>
          ("High heat forecast (" ++ numToString w.temperature ++
            "°C) - adjust timing",
           ["Very early tee time (before 7am)",
            "Extended midpoint break for hydration"])
      else
        ("", [])
  createRecommendation
    "Substitute golf course due to weather"
    ra.1
    (signalsSVal s)
    ra.2
    true
    .high

/-- Embedding of `selectByTravelTime`: a `reduce` keeping the first course
of minimal travel time when energy is truthy and below 4, else the first
listed course. -/
def selectByTravelTime (c0 : GolfCourse) (rest : List GolfCourse)
    (energyLevel : Option ℚ) : GolfCourse :=
  if numTruthy energyLevel && optLt energyLevel 4 then
    rest.foldl (fun closest course =>
      if course.travelTime < closest.travelTime then course else closest) c0
  else c0

/-- Embedding of `buildCourseRationale`. -/
def buildCourseRationale (course : GolfCourse) (s : Signals) : String :=
  let reasons :=
    (if PREFERRED_REPEAT_COURSES.any (fun pref => strIncludes course.name pref) then
      ["preferred course for repeat play"] else []) ++
    (if course.climate = "cool" || course.climate = "mountain" then
      ["cooler climate reduces physical stress"] else []) ++
    (if course.travelTime < 30 then
      ["minimal travel time preserves energy"] else []) ++
    (if numTruthy s.energyLevel && optGe s.energyLevel 4 then
      ["energy level " ++ optNumToString s.energyLevel ++ "/5 supports full round"]
     else [])
  if reasons.length > 0 then
    "Selected based on: " ++ String.intercalate ", " reasons ++ "."
  else
    "Course selected based on availability and schedule."

/-- Embedding of `recommendOptimalCourse`. -/
def recommendOptimalCourse (s : Signals) (ctx : Context) : AgentRecommendation :=
  match ctx.availableCourses with
  | [] =>
    createRecommendation
      "No course recommendation - insufficient data"
      "No available courses provided in context."
      (signalsSVal s)
      []
      false
      .low
  | c :: cs =>
    let recommendedCourse :=
      match (c :: cs).find? (fun course =>
          PREFERRED_REPEAT_COURSES.any (fun pref => strIncludes course.name pref)) with
      | some r => r
      | none => selectByTravelTime c cs s.energyLevel
    createRecommendation
      ("Proceed with golf at " ++ recommendedCourse.name)
      (buildCourseRationale recommendedCourse s)
      (signalsSVal s)
      ["Book tee time at " ++ recommendedCourse.name,
       "Morning tee time only (before 10am)",
       "Confirm caddie and cart included",
       "Travel time: " ++ numToString recommendedCourse.travelTime ++ " minutes"]
      false
      .medium

/-- Embedding of `GolfOperationsAgent.analyze`: the Vietnam location gate
followed by the skip / substitute / optimal ladder. -/
def analyze (ctx : Context) : AgentRecommendation :=
  if !(isVietnamLocation ctx.location) then
    createRecommendation
      "No golf operations - outside Vietnam"
      "Golf activities are only scheduled in Da Nang / Hoi An, Vietnam."
      [("location", .str ctx.location)]
      []
      false
      .low
  else
    let signals := collectSignals ctx
    if shouldSkipGolf signals then
      recommendSkipGolf signals
    else if shouldSubstituteCourse signals then
      recommendCourseSubstitution signals ctx
    else
      recommendOptimalCourse signals ctx

end GolfOperationsAgent

/-- Trip budget fields read by the budget agent; `categories` maps category
names to planned amounts. -/
structure TripBudget where
  total : ℚ
  spent : ℚ
  categories : List (String × ℚ)

/-- Trip entity; the agents only read its `budget`. -/
structure Trip where
  budget : TripBudget

/-- Planned/actual spend pair of one budget category. -/
structure CategorySpendEntry where
  planned : ℚ
  actual : ℚ

/-- Upcoming expense entry of the budget context. -/
structure UpcomingExpense where
  category : String
  amount : ℚ
  description : String

/-- Unused prepaid item of the budget context. -/
structure PrepaidItem where
  category : String
  amount : ℚ
  item : String

namespace BudgetControlAgent

/-- The fixed 10 percent alert threshold. -/
def ALERT_THRESHOLD : ℚ := 10 / 100

/-- The fixed 20 percent critical threshold. -/
def CRITICAL_THRESHOLD : ℚ := 20 / 100

/-- Typed budget agent context (budget-control-agent.ts). -/
structure Context where
  tripId : String
  userId : String
  date : String
  trip : Trip
  categorySpend : List (String × CategorySpendEntry)
  upcomingExpenses : Option (List UpcomingExpense)
  unusedPrepaid : Option (List PrepaidItem)

/-- Typed form of the signal snapshot assembled by `collectSignals`.  In
the source `percentSpent` is a floating division that may be NaN or infinite
when the total is zero; here division by zero yields zero, and the value
only feeds rationale text. -/
structure Signals where
  totalBudget : ℚ
  totalSpent : ℚ
  remainingBudget : ℚ
  percentSpent : ℚ
  categoryCount : ℚ
  upcomingExpensesCount : ℚ
  unusedPrepaidCount : ℚ

/-- Embedding of `collectSignals`. -/
def collectSignals (ctx : Context) : Signals :=
  { totalBudget := ctx.trip.budget.total
    totalSpent := ctx.trip.budget.spent
    remainingBudget := ctx.trip.budget.total - ctx.trip.budget.spent
    percentSpent := ctx.trip.budget.spent / ctx.trip.budget.total * 100
    categoryCount := (ctx.categorySpend.length : ℚ)
    upcomingExpensesCount :=
      match ctx.upcomingExpenses with
      | some l => (l.length : ℚ)
      | none => 0
    unusedPrepaidCount :=
      match ctx.unusedPrepaid with
      | some l => (l.length : ℚ)
      | none => 0 }

/-- Rendering of the budget signals into the audit snapshot. -/
def signalsSVal (s : Signals) : List (String × SVal) :=
  [("totalBudget", .num s.totalBudget),
   ("totalSpent", .num s.totalSpent),
   ("remainingBudget", .num s.remainingBudget),
   ("percentSpent", .num s.percentSpent),
   ("categoryCount", .num s.categoryCount),
   ("upcomingExpensesCount", .num s.upcomingExpensesCount),
   ("unusedPrepaidCount", .num s.unusedPrepaidCount)]

/-- One row of `calculateVariances`. -/
structure CategoryVariance where
  category : String
  planned : ℚ
  actual : ℚ
  variance : ℚ
  variancePercent : ℚ

/-- Embedding of `calculateVariances`: variance is actual minus planned and
the percentage guards division by a non-positive planned amount, treated as
zero variance. -/
def calculateVariances (ctx : Context) : List CategoryVariance :=
  ctx.categorySpend.map (fun (p : String × CategorySpendEntry) =>
    { category := p.1
      planned := p.2.planned
      actual := p.2.actual
      variance := p.2.actual - p.2.planned
      variancePercent :=
        if p.2.planned > 0 then (p.2.actual - p.2.planned) / p.2.planned else 0 })

/-- Embedding of `findOverruns`: strict comparison against the alert
threshold. -/
def findOverruns (variances : List CategoryVariance) : List CategoryVariance :=
  variances.filter (fun v => decide (v.variancePercent > ALERT_THRESHOLD))

/-- Embedding of `findCriticalOverruns`: strict comparison against the
critical threshold. -/
def findCriticalOverruns (variances : List CategoryVariance) : List CategoryVariance :=
  variances.filter (fun v => decide (v.variancePercent > CRITICAL_THRESHOLD))

/-- Category with available surplus, as produced by
`findUnderbudgetCategories`. -/
structure UnderbudgetCategory where
  category : String
  available : ℚ

/-- Stable insertion of one element into a list sorted by descending
`available`. -/
def insertByAvailableDesc (x : UnderbudgetCategory) :
    List UnderbudgetCategory → List UnderbudgetCategory
  | [] => [x]
  | y :: ys =>
    if x.available ≥ y.available then x :: y :: ys
    else y :: insertByAvailableDesc x ys

/-- Stable sort by descending `available` (the `.sort` of the source). -/
def sortByAvailableDesc : List UnderbudgetCategory → List UnderbudgetCategory
  | [] => []
  | x :: xs => insertByAvailableDesc x (sortByAvailableDesc xs)

/-- Embedding of `findUnderbudgetCategories`: categories with actual below
planned, with their surplus, sorted by descending surplus. -/
def findUnderbudgetCategories (ctx : Context) : List UnderbudgetCategory :=
  sortByAvailableDesc
    ((ctx.categorySpend.filter
        (fun (p : String × CategorySpendEntry) => decide (p.2.actual < p.2.planned))).map
      (fun (p : String × CategorySpendEntry) =>
        { category := p.1, available := p.2.planned - p.2.actual }))

/-- Embedding of `recommendCriticalAction`. -/
def recommendCriticalAction (criticalOverruns : List CategoryVariance)
    (signals : Signals) (ctx : Context) : AgentRecommendation :=
  let details := String.intercalate "; " (criticalOverruns.map (fun c =>
    c.category ++ ": " ++ toFixed1 (c.variancePercent * 100) ++ "% over budget"))
  let underbudget := findUnderbudgetCategories ctx
  let actions :=
    ["URGENT: Review and approve continued spending"] ++
    criticalOverruns.map (fun c =>
      c.category ++ ": planned " ++ numToString c.planned ++ ", actual " ++
        numToString c.actual ++ " (" ++ (if c.variance > 0 then "+" else "") ++
        numToString c.variance ++ ")") ++
    ["Consider reallocating from other categories",
     "Evaluate whether to adjust remaining trip plans"] ++
    (if underbudget.length > 0 then
      ["", "Potential reallocation sources:"] ++
        underbudget.map (fun cat =>
          "- " ++ cat.category ++ ": " ++ numToString cat.available ++ " available")
     else [])
  createRecommendation
    "CRITICAL: Budget overrun detected"
    ("Critical variance detected: " ++ details ++ ". Total budget at " ++
      toFixed1 signals.percentSpent ++ "% utilized.")
    (signalsSVal signals)
    actions
    true
    .critical

/-- Embedding of `recommendBudgetAdjustment`. -/
def recommendBudgetAdjustment (overruns : List CategoryVariance)
    (signals : Signals) (ctx : Context) : AgentRecommendation :=
  let details := String.intercalate "; " (overruns.map (fun c =>
    c.category ++ ": " ++ toFixed1 (c.variancePercent * 100) ++ "% over"))
  let underbudget := findUnderbudgetCategories ctx
  let actions :=
    ["Review category spending patterns"] ++
    overruns.map (fun c =>
      c.category ++ ": variance of " ++ numToString c.variance ++ " (" ++
        toFixed1 (c.variancePercent * 100) ++ "%)") ++
    (if underbudget.length > 0 then
      ["", "Recommended reallocations:"] ++
        overruns.filterMap (fun (over : CategoryVariance) =>
          Option.map
            (fun (source : UnderbudgetCategory) =>
              "- Reallocate " ++ numToString (abs over.variance) ++ " from " ++
                source.category ++ " to " ++ over.category)
            (underbudget.find?
              (fun (u : UnderbudgetCategory) => decide (u.available ≥ abs over.variance))))
     else
      ["", "No underbudget categories available for reallocation",
       "Consider reducing upcoming discretionary expenses"])
  createRecommendation
    "Budget variance detected - adjustment recommended"
    ("Category overruns detected: " ++ details ++
      ". Reallocation recommended to maintain overall budget.")
    (signalsSVal signals)
    actions
    true
    .high

/-- Embedding of `recommendPrepaidUtilization`. -/
def recommendPrepaidUtilization (unusedPrepaid : List PrepaidItem)
    (signals : Signals) : AgentRecommendation :=
  let totalUnused := unusedPrepaid.foldl (fun sum item => sum + item.amount) 0
  let actions :=
    ["Total unused prepaid value: " ++ numToString totalUnused,
     "",
     "Unutilized items:"] ++
    unusedPrepaid.map (fun item =>
      "- " ++ item.item ++ " (" ++ item.category ++ "): " ++ numToString item.amount) ++
    ["",
     "Recommended actions:",
     "Review whether these items can still be used",
     "Consider booking alternative experiences of equal value",
     "Document items that cannot be recovered"]
  createRecommendation
    "Unused prepaid value detected"
    (numToString totalUnused ++
      " in prepaid expenses not yet utilized. Review opportunities to use or reallocate this value.")
    (signalsSVal signals)
    actions
    false
    .medium

/-- Embedding of `buildSummary` for the on-track branch. -/
def buildSummary (signals : Signals) (variances : List CategoryVariance) : String :=
  let onTrack := variances.filter (fun v => decide (|v.variancePercent| ≤ ALERT_THRESHOLD))
  let lines :=
    ["Total budget: " ++ numToString signals.totalBudget ++ ", Spent: " ++
       numToString signals.totalSpent ++ " (" ++ toFixed1 signals.percentSpent ++ "%)",
     "Remaining: " ++ numToString signals.remainingBudget] ++
    (if onTrack.length > 0 then
      [toString onTrack.length ++ " categories on track"] else [])
  String.intercalate ". " lines

/-- The on-track recommendation of the final branch. -/
def recommendOnTrack (signals : Signals) (variances : List CategoryVariance) :
    AgentRecommendation :=
  createRecommendation
    "Budget on track - no adjustments needed"
    (buildSummary signals variances)
    (signalsSVal signals)
    []
    false
    .low

/-- Embedding of `BudgetControlAgent.analyze`: critical overruns, then
alert overruns, then unused prepaid value, then on track. -/
def analyze (ctx : Context) : AgentRecommendation :=
  let signals := collectSignals ctx
  let variances := calculateVariances ctx
  let criticalOverruns := findCriticalOverruns variances
  if criticalOverruns.length > 0 then
    recommendCriticalAction criticalOverruns signals ctx
  else
    let overruns := findOverruns variances
    if overruns.length > 0 then
      recommendBudgetAdjustment overruns signals ctx
    else
      match ctx.unusedPrepaid with
      | some (x :: xs) => recommendPrepaidUtilization (x :: xs) signals
      | _ => recommendOnTrack signals variances

end BudgetControlAgent

/-- Opaque transport segment; the transport agent only reads the count of
planned segments. -/
inductive TransportSegment where
  | mk

namespace TransportLogisticsAgent

/-- Buffer for an international flight, in minutes. -/
def AIRPORT_BUFFER : ℚ := 120

/-- Buffer for a domestic flight, in minutes. -/
def DOMESTIC_AIRPORT_BUFFER : ℚ := 90

/-- Buffer for a golf-course transfer by private car, in minutes. -/
def COURSE_TRANSFER_BUFFER : ℚ := 45

/-- Buffer for a hotel check-in, in minutes (declared but unused by the
decision logic). -/
def HOTEL_CHECKIN_BUFFER : ℚ := 30

/-- The standard fallback buffer, in minutes. -/
def STANDARD_BUFFER : ℚ := 15

/-- Typed transport agent context (transport-logistics-agent.ts).  The
`transportType` union is kept as a string, matching the `switch` of the
source that falls through to the standard buffer on anything else. -/
structure Context where
  tripId : String
  userId : String
  date : String
  plannedSegments : Option (List TransportSegment)
  currentLocation : String
  nextDestination : Option String
  departureTime : Option String
  arrivalTime : Option String
  transportType : Option String
  luggageCount : Option ℚ
  mobilityConsiderations : Option (List String)

/-- Typed form of the signal snapshot assembled by `collectSignals`. -/
structure Signals where
  currentLocation : String
  nextDestination : Option String
  transportType : Option String
  departureTime : Option String
  arrivalTime : Option String
  luggageCount : Option ℚ
  mobilityConsiderations : Option (List String)
  plannedSegmentsCount : ℚ

/-- Embedding of `collectSignals` (`plannedSegments?.length || 0`). -/
def collectSignals (ctx : Context) : Signals :=
  { currentLocation := ctx.currentLocation
    nextDestination := ctx.nextDestination
    transportType := ctx.transportType
    departureTime := ctx.departureTime
    arrivalTime := ctx.arrivalTime
    luggageCount := ctx.luggageCount
    mobilityConsiderations := ctx.mobilityConsiderations
    plannedSegmentsCount :=
      match ctx.plannedSegments with
      | some l => (l.length : ℚ)
      | none => 0 }

/-- Rendering of the transport signals into the audit snapshot. -/
def signalsSVal (s : Signals) : List (String × SVal) :=
  [("currentLocation", .str s.currentLocation),
   ("nextDestination", optStrSVal s.nextDestination),
   ("transportType", optStrSVal s.transportType),
   ("departureTime", optStrSVal s.departureTime),
   ("arrivalTime", optStrSVal s.arrivalTime),
   ("luggageCount", optNumSVal s.luggageCount),
   ("mobilityConsiderations",
     match s.mobilityConsiderations with
     | some ms => .arr (ms.map SVal.str)
     | none => .undef),
   ("plannedSegmentsCount", .num s.plannedSegmentsCount)]

/-- Result shape of `assessBuffers` (the optional `currentBuffer` of the
source is never assigned and is omitted). -/
structure BufferAssessment where
  insufficient : Bool
  requiredBuffer : ℚ
  details : String

/-- Embedding of `isInternationalFlight`: the two locations resolve to
different entries of the small recognized-country list. -/
def isInternationalFlight (ctx : Context) : Bool :=
  let international : List String := ["vietnam", "japan", "korea"]
  let current := strToLower ctx.currentLocation
  let next :=
    match ctx.nextDestination with
    | some d => strToLower d
    | none => ""
  let currentCountry := international.find? (fun c => strIncludes current c)
  let nextCountry := international.find? (fun c => strIncludes next c)
  currentCountry != nextCountry

/-- Embedding of `isGolfCourseTransfer`. -/
def isGolfCourseTransfer (ctx : Context) : Bool :=
  match ctx.nextDestination with
  | some d => strIncludes (strToLower d) "golf" || strIncludes (strToLower d) "course"
  | none => false

/-- Embedding of `assessBuffers`.  The adequacy check is the placeholder of
the source: `insufficient` is always `false` because the agent lacks the
prior-activity end time; only the required buffer is computed. -/
def assessBuffers (ctx : Context) : BufferAssessment :=
  match ctx.transportType, ctx.departureTime with
  | some tt, some dt =>
    if tt = "" || dt = "" then
      { insufficient := false, requiredBuffer := 0, details := "No transport scheduled" }
    else
      let requiredBuffer :=
        if tt = "flight" then
          if isInternationalFlight ctx then AIRPORT_BUFFER else DOMESTIC_AIRPORT_BUFFER
        else if tt = "private_car" then
          if isGolfCourseTransfer ctx then COURSE_TRANSFER_BUFFER else STANDARD_BUFFER
        else STANDARD_BUFFER
      { insufficient := false
        requiredBuffer := requiredBuffer
        details := "Requires " ++ numToString requiredBuffer ++
          " minute buffer for " ++ tt }
  | _, _ =>
    { insufficient := false, requiredBuffer := 0, details := "No transport scheduled" }

/-- Embedding of `isEarlyDeparture`: the hour parsed before the first colon
is below 7 (an unparsable hour is NaN in the source and compares false). -/
def isEarlyDeparture (departureTime : String) : Bool :=
  match ((departureTime.splitOn ":").headD "").toInt? with
  | some h => decide (h < 7)
  | none => false

/-- Embedding of `identifyRisks`: the four independent risk checks in
source order. -/
def identifyRisks (ctx : Context) : List String :=
  (if numTruthy ctx.luggageCount && optGt ctx.luggageCount 3 then
    ["Heavy luggage count may slow movement"] else []) ++
  (match ctx.mobilityConsiderations with
   | some ms =>
     if ms.length > 0 then
       ["Mobility considerations: " ++ String.intercalate ", " ms] else []
   | none => []) ++
  (match ctx.plannedSegments with
   | some segs =>
     if segs.length > 2 then
       ["Multiple transport segments increase fatigue and delay risk"] else []
   | none => []) ++
  (match ctx.departureTime with
   | some dt =>
     if dt ≠ "" && isEarlyDeparture dt then
       ["Early departure may impact sleep quality"] else []
   | none => [])

/-- Embedding of `recommendBufferIncrease` (only reachable when a buffer
assessment reports insufficient, which the placeholder never does). -/
def recommendBufferIncrease (assessment : BufferAssessment)
    (signals : Signals) : AgentRecommendation :=
  let actions :=
    ["Increase buffer to " ++ numToString assessment.requiredBuffer ++ " minutes",
     "Adjust preceding activities if needed",
     "Confirm departure time allows for buffer"] ++
    (if numTruthy signals.luggageCount && optGt signals.luggageCount 2 then
      ["Consider porter assistance due to luggage count"] else []) ++
    (match signals.mobilityConsiderations with
     | some ms =>
       if ms.length > 0 then
         ["Request wheelchair or mobility assistance in advance"] else []
     | none => [])
  createRecommendation
    "Insufficient transport buffer"
    (assessment.details ++ ". Reliability requires adequate buffer time.")
    (signalsSVal signals)
    actions
    true
    .high

/-- Embedding of `recommendRiskMitigation`. -/
def recommendRiskMitigation (risks : List String) (signals : Signals)
    (ctx : Context) : AgentRecommendation :=
  let actions :=
    ["Risk factors identified:"] ++
    risks.map (fun r => "- " ++ r) ++
    ["", "Recommended mitigations:"] ++
    (if risks.any (fun r => strIncludes r "luggage") then
      ["- Arrange porter or luggage assistance",
       "- Consider shipping some items ahead"] else []) ++
    (if risks.any (fun r => strIncludes r "mobility") then
      ["- Pre-book wheelchair or mobility assistance",
       "- Request priority boarding",
       "- Allocate extra time for boarding"] else []) ++
    (if risks.any (fun r => strIncludes r "segments") then
      ["- Build in rest periods between segments",
       "- Consider overnight stay to break up journey"] else []) ++
    (if risks.any (fun r => strIncludes r "Early departure") then
      ["- Ensure 8-hour sleep window before departure",
       "- Prepare luggage night before",
       "- Arrange express checkout"] else [])
  createRecommendation
    "Transport risk factors detected"
    (toString risks.length ++ " risk factors identified for transport on " ++
      ctx.date ++ ". Proactive mitigation recommended.")
    (signalsSVal signals)
    actions
    false
    .medium

/-- Embedding of `confirmTransportPlan`. -/
def confirmTransportPlan (signals : Signals) (ctx : Context) : AgentRecommendation :=
  let actions :=
    ["Transport: " ++ ctx.currentLocation ++ " → " ++ optStrRender ctx.nextDestination,
     "Type: " ++ optStrRender ctx.transportType] ++
    (match ctx.departureTime with
     | some dt => if dt ≠ "" then ["Departure: " ++ dt] else []
     | none => []) ++
    (match ctx.arrivalTime with
     | some arrTime => if arrTime ≠ "" then ["Arrival: " ++ arrTime] else []
     | none => []) ++
    ["", "Transport plan approved - adequate buffers and low risk"]
  createRecommendation
    "Transport plan confirmed"
    "All transport logistics reviewed. Plan is reliable and low-stress."
    (signalsSVal signals)
    actions
    false
    .low

/-- Embedding of `TransportLogisticsAgent.analyze`. -/
def analyze (ctx : Context) : AgentRecommendation :=
  let signals := collectSignals ctx
  if !(strTruthy ctx.nextDestination) then
    createRecommendation
      "No transport scheduled"
      "No transport requirements for this day."
      (signalsSVal signals)
      []
      false
      .low
  else
    let bufferAssessment := assessBuffers ctx
    if bufferAssessment.insufficient then
      recommendBufferIncrease bufferAssessment signals
    else
      let risks := identifyRisks ctx
      if risks.length > 0 then
        recommendRiskMitigation risks signals ctx
      else
        confirmTransportPlan signals ctx

end TransportLogisticsAgent

/-- Schedule block of a daily itinerary; the orchestrator only reads the
optional `activity` string. -/
structure ScheduleBlock where
  activity : Option String

/-- Daily schedule; the orchestrator only reads the morning and afternoon
blocks. -/
structure DailySchedule where
  morning : Option ScheduleBlock
  afternoon : Option ScheduleBlock

/-- Daily itinerary fields read by the orchestrator. -/
structure DailyItinerary where
  date : String
  tripId : String
  location : String
  primaryIntent : String
  schedule : DailySchedule

/-- Traveler feedback fields of the orchestrator context. -/
structure TravelerFeedback where
  energyRating : Option ℚ
  sleepQuality : Option ℚ
  satisfactionScore : Option ℚ
  notes : Option String

/-- Weather fields of the orchestrator context (no rainfall, unlike the
golf forecast shape). -/
structure TXAWeather where
  condition : String
  temperature : ℚ
  humidity : ℚ

/-- Budget status fields of the orchestrator context (declared in the
source but not read by any decision path). -/
structure BudgetStatus where
  totalSpent : ℚ
  remainingBudget : ℚ

namespace TravelExperienceAgent

/-- Typed orchestrator context (travel-experience-agent.ts).  The
orchestrator validates only the presence of the `trip` key, so the value
may still be `undefined`: `trip` is an `Option`, and an absent value makes
the budget sub-call fault exactly as the source does when it dereferences
`trip.budget`. -/
structure Context where
  tripId : String
  userId : String
  date : String
  trip : Option Trip
  wellnessProfile : Option WellnessProfile
  currentItinerary : DailyItinerary
  travelerFeedback : Option TravelerFeedback
  weather : Option TXAWeather
  budgetStatus : BudgetStatus

/-- Embedding of `calculateConsecutiveActiveDays` (the placeholder
heuristic of the source: recovery intent means 0, anything else 1). -/
def calculateConsecutiveActiveDays (ctx : Context) : ℚ :=
  if ctx.currentItinerary.primaryIntent = "recovery" then 0 else 1

/-- Embedding of `calculateConsecutiveGolfDays` (placeholder: always 0). -/
def calculateConsecutiveGolfDays (_ctx : Context) : ℚ := 0

/-- Embedding of `extractPlannedActivity`: morning and afternoon activity
strings filtered by truthiness, then a physical-load heuristic keyed on the
primary intent. -/
def extractPlannedActivity (itinerary : DailyItinerary) : Option PlannedActivity :=
  let activities :=
    (([itinerary.schedule.morning, itinerary.schedule.afternoon].filterMap
        (fun b => b.bind (·.activity))).filter (fun s => decide (s ≠ "")))
  if activities.length = 0 then none
  else
    let hasGolf := itinerary.primaryIntent = "golf"
    let hasCulture := itinerary.primaryIntent = "culture"
    some
      { type := itinerary.primaryIntent
        physicalLoad := if hasGolf then "high" else if hasCulture then "medium" else "low"
        estimatedSteps := some (if hasGolf then 10000 else if hasCulture then 6000 else 3000) }

/-- Embedding of `buildCategorySpend`: planned amounts zipped with a
hardcoded zero actual (the `planned || 0` truthiness fallback keeps an
explicit zero at zero). -/
def buildCategorySpend (trip : Trip) : List (String × CategorySpendEntry) :=
  trip.budget.categories.map (fun (p : String × ℚ) =>
    (p.1, { planned := if p.2 = 0 then 0 else p.2, actual := 0 }))

/-- The health sub-context derived before fan-out. -/
def healthContext (ctx : Context) : HealthRecoveryAgent.Context :=
  { tripId := ctx.tripId
    userId := ctx.userId
    date := ctx.date
    sleepQuality := ctx.travelerFeedback.bind (·.sleepQuality)
    energyRating := ctx.travelerFeedback.bind (·.energyRating)
    consecutiveActiveDays := calculateConsecutiveActiveDays ctx
    environmentalStress := none
    wellnessProfile := ctx.wellnessProfile
    plannedActivity := extractPlannedActivity ctx.currentItinerary }

/-- The golf sub-context derived before fan-out (`availableCourses` is the
hardcoded empty list of the source; the weather shape has no rainfall). -/
def golfContext (ctx : Context) : GolfOperationsAgent.Context :=
  { tripId := ctx.tripId
    userId := ctx.userId
    date := ctx.date
    location := ctx.currentItinerary.location
    recentRounds := none
    energyLevel := ctx.travelerFeedback.bind (·.energyRating)
    weatherForecast := ctx.weather.map (fun w =>
      { condition := w.condition
        temperature := w.temperature
        humidity := w.humidity
        rainfall := none })
    consecutiveGolfDays := calculateConsecutiveGolfDays ctx
    availableCourses := [] }

/-- The budget sub-context derived before fan-out, given a defined trip. -/
def budgetContext (ctx : Context) (trip : Trip) : BudgetControlAgent.Context :=
  { tripId := ctx.tripId
    userId := ctx.userId
    date := ctx.date
    trip := trip
    categorySpend := buildCategorySpend trip
    upcomingExpenses := none
    unusedPrepaid := none }

/-- The transport sub-context derived before fan-out (the source only sets
`currentLocation`; no next destination is extracted). -/
def transportContext (ctx : Context) : TransportLogisticsAgent.Context :=
  { tripId := ctx.tripId
    userId := ctx.userId
    date := ctx.date
    plannedSegments := none
    currentLocation := ctx.currentItinerary.location
    nextDestination := none
    departureTime := none
    arrivalTime := none
    transportType := none
    luggageCount := none
    mobilityConsiderations := none }

/-- Embedding of `getHealthRecommendation`; the try/catch of the source
rethrows, so the result is the sub-agent result. -/
def getHealthRecommendation (ctx : Context) : Except String AgentRecommendation :=
  .ok (HealthRecoveryAgent.analyze (healthContext ctx))

/-- Embedding of `getGolfRecommendation`. -/
def getGolfRecommendation (ctx : Context) : Except String AgentRecommendation :=
  .ok (GolfOperationsAgent.analyze (golfContext ctx))

/-- Embedding of `getBudgetRecommendation`: building the budget sub-context
dereferences `context.trip.budget`, which faults with a TypeError when the
`trip` value is undefined; the try/catch rethrows that error. -/
def getBudgetRecommendation (ctx : Context) : Except String AgentRecommendation :=
  match ctx.trip with
  | none => .error "TypeError: Cannot read properties of undefined (reading budget)"
  | some trip => .ok (BudgetControlAgent.analyze (budgetContext ctx trip))

/-- Embedding of `getTransportRecommendation`. -/
def getTransportRecommendation (ctx : Context) : Except String AgentRecommendation :=
  .ok (TransportLogisticsAgent.analyze (transportContext ctx))

/-- Rendering of a nested recommendation into the audit snapshot of the
final decision. -/
def recToSVal (r : AgentRecommendation) : SVal :=
  .obj [("decision", .str r.decision),
        ("rationale", .str r.rationale),
        ("inputSignals", .obj r.inputSignals),
        ("outputActions", .arr (r.outputActions.map SVal.str)),
        ("approvalRequired", .bool r.approvalRequired),
        ("priority", .str r.priority.toStr)]

/-- Embedding of `buildNominalSummary`. -/
def buildNominalSummary (ctx : Context) : String :=
  let parts :=
    ["Day proceeding as planned in " ++ ctx.currentItinerary.location ++ ".",
     "Primary focus: " ++ ctx.currentItinerary.primaryIntent ++ "."] ++
    (if numTruthy (ctx.travelerFeedback.bind (·.energyRating)) then
      ["Energy level: " ++
        optNumToString (ctx.travelerFeedback.bind (·.energyRating)) ++ "/5."]
     else []) ++
    ["All systems green."]
  String.intercalate " " parts

/-- Embedding of `applyCoordinationRules`: the strict priority ladder
health, transport, budget-critical, golf-approval, nominal. -/
def applyCoordinationRules (health golf budget transport : AgentRecommendation)
    (ctx : Context) : AgentRecommendation :=
  if health.priority == .critical || health.priority == .high then
    createRecommendation
      "Health priority override"
      ("Health & recovery agent recommends intervention. Health rationale: " ++
        health.rationale)
      [("healthRecommendation", recToSVal health),
       ("otherRecommendations",
         .obj [("golf", recToSVal golf), ("budget", recToSVal budget),
               ("transport", recToSVal transport)])]
      (health.outputActions ++
        ["", "Other agent recommendations deferred to prioritize well-being."])
      health.approvalRequired
      health.priority
  else if transport.priority == .critical || transport.priority == .high then
    createRecommendation
      "Logistics priority override"
      ("Transport logistics require adjustment. Transport rationale: " ++
        transport.rationale)
      [("transportRecommendation", recToSVal transport),
       ("healthRecommendation", recToSVal health)]
      (transport.outputActions ++
        ["", "Schedule adjusted to ensure reliable transport."])
      transport.approvalRequired
      transport.priority
  else if budget.priority == .critical then
    createRecommendation
      "Budget control intervention"
      ("Critical budget variance detected. Budget rationale: " ++ budget.rationale)
      [("budgetRecommendation", recToSVal budget),
       ("healthStatus", recToSVal health)]
      (budget.outputActions ++
        ["", "Spending adjustments required before proceeding."])
      true
      .critical
  else if golf.approvalRequired then
    createRecommendation
      "Golf activity adjustment recommended"
      golf.rationale
      [("golfRecommendation", recToSVal golf),
       ("healthStatus", recToSVal health)]
      golf.outputActions
      true
      golf.priority
  else
    createRecommendation
      "Proceed with planned itinerary"
      (buildNominalSummary ctx)
      [("allRecommendations",
        .obj [("health", recToSVal health), ("golf", recToSVal golf),
              ("budget", recToSVal budget), ("transport", recToSVal transport)])]
      ["All agent assessments favorable",
       "Health: " ++ health.decision,
       "Transport: " ++ transport.decision,
       "Budget: " ++ budget.decision,
       "Golf: " ++ golf.decision]
      false
      .low

/-- Embedding of `TravelExperienceAgent.analyze`: the `Promise.all`
fan-out is an all-or-fail barrier, embedded as `Except` propagation in the
array order health, golf, budget, transport; when all four succeed the
coordination rules produce the final decision.  The required-field
validation of the orchestrator checks key presence only, which the typed
context satisfies by construction. -/
def analyze (ctx : Context) : Except String AgentRecommendation := do
  let health ← getHealthRecommendation ctx
  let golf ← getGolfRecommendation ctx
  let budget ← getBudgetRecommendation ctx
  let transport ← getTransportRecommendation ctx
  pure (applyCoordinationRules health golf budget transport ctx)

end TravelExperienceAgent

/-! Concrete contexts used by the verification results below. -/

/-- Scenario 1 of the spec: poor sleep, medium energy, four consecutive
active days. -/
def scenario1Ctx : HealthRecoveryAgent.Context :=
  { tripId := "trip_vn_001"
    userId := "user_001"
    date := "2026-02-20"
    sleepQuality := some 2
    energyRating := some 3
    consecutiveActiveDays := 4
    environmentalStress := none
    wellnessProfile := none
    plannedActivity := none }

/-- Health context triggering the activity-moderation branch (planned steps
above the default target). -/
def moderationHealthCtx : HealthRecoveryAgent.Context :=
  { tripId := "trip_vn_001"
    userId := "user_001"
    date := "2026-02-21"
    sleepQuality := some 4
    energyRating := some 3
    consecutiveActiveDays := 1
    environmentalStress := none
    wellnessProfile := none
    plannedActivity := some { type := "golf", physicalLoad := "high", estimatedSteps := some 10000 } }

/-- Golf context outside the recognized Vietnam region, with inputs that
would otherwise trigger the skip and substitution rules. -/
def outsideVietnamCtx : GolfOperationsAgent.Context :=
  { tripId := "trip_jp_001"
    userId := "user_001"
    date := "2026-03-10"
    location := "Kyoto, Japan"
    recentRounds := none
    energyLevel := some 1
    weatherForecast := some
      { condition := "rain", temperature := 36, humidity := 90, rainfall := some 20 }
    consecutiveGolfDays := 3
    availableCourses :=
      [{ name := "Ba Na Hills Golf Club", travelTime := 45
         difficulty := "moderate", climate := "mountain" }] }

/-- Neutral golf context used as a bystander input. -/
def bystanderGolfCtx : GolfOperationsAgent.Context :=
  { tripId := "trip_vn_001"
    userId := "user_001"
    date := "2026-02-21"
    location := "Da Nang, Vietnam"
    recentRounds := none
    energyLevel := some 4
    weatherForecast := none
    consecutiveGolfDays := 0
    availableCourses := [] }

/-- Neutral budget context used as a bystander input. -/
def bystanderBudgetCtx : BudgetControlAgent.Context :=
  { tripId := "trip_vn_001"
    userId := "user_001"
    date := "2026-02-21"
    trip := { budget := { total := 50000, spent := 12000, categories := [("golf", 5000)] } }
    categorySpend := [("golf", { planned := 5000, actual := 4000 })]
    upcomingExpenses := none
    unusedPrepaid := none }

/-- Neutral transport context used as a bystander input. -/
def bystanderTransportCtx : TransportLogisticsAgent.Context :=
  { tripId := "trip_vn_001"
    userId := "user_001"
    date := "2026-02-21"
    plannedSegments := none
    currentLocation := "Da Nang, Vietnam"
    nextDestination := none
    departureTime := none
    arrivalTime := none
    transportType := none
    luggageCount := none
    mobilityConsiderations := none }

/-- Scenario 2 of the spec for the golf agent: Da Nang, no consecutive golf
days, 34 degrees at 78 percent humidity, Ba Na Hills available. -/
def scenario2Ctx : GolfOperationsAgent.Context :=
  { tripId := "trip_vn_001"
    userId := "user_001"
    date := "2026-02-20"
    location := "Da Nang, Vietnam"
    recentRounds := none
    energyLevel := none
    weatherForecast := some
      { condition := "partly cloudy", temperature := 34, humidity := 78, rainfall := none }
    consecutiveGolfDays := 0
    availableCourses :=
      [{ name := "Ba Na Hills Golf Club", travelTime := 45
         difficulty := "moderate", climate := "mountain" }] }

/-- A heat forecast above the 35-degree substitution threshold. -/
def hotWeather : GolfWeather :=
  { condition := "hot", temperature := 36, humidity := 78, rainfall := none }

/-- The Scenario 2 context with the temperature raised above 35 degrees. -/
def hotWeatherCtx : GolfOperationsAgent.Context :=
  { tripId := "trip_vn_001"
    userId := "user_001"
    date := "2026-02-20"
    location := "Da Nang, Vietnam"
    recentRounds := none
    energyLevel := none
    weatherForecast := some hotWeather
    consecutiveGolfDays := 0
    availableCourses :=
      [{ name := "Ba Na Hills Golf Club", travelTime := 45
         difficulty := "moderate", climate := "mountain" }] }

/-- Budget context with a single category of the given planned and actual
spend. -/
def mkBudgetCtx (planned actual : ℚ) : BudgetControlAgent.Context :=
  { tripId := "trip_vn_001"
    userId := "user_001"
    date := "2026-03-01"
    trip := { budget := { total := 10000, spent := 0, categories := [("golf", planned)] } }
    categorySpend := [("golf", { planned := planned, actual := actual })]
    upcomingExpenses := none
    unusedPrepaid := none }

/-- Trip used by the orchestrator contexts below. -/
def demoTrip : Trip :=
  { budget := { total := 50000, spent := 12000
                categories := [("golf", 5000), ("hotels", 18000)] } }

/-- Golf-day itinerary in Da Nang used by the orchestrator contexts. -/
def demoItinerary : DailyItinerary :=
  { date := "2026-02-21"
    tripId := "trip_vn_001"
    location := "Da Nang, Vietnam"
    primaryIntent := "golf"
    schedule :=
      { morning := some { activity := some "Golf at Montgomerie Links Vietnam" }
        afternoon := none } }

/-- Orchestrator context whose traveler feedback reports poor sleep, so the
health agent goes critical. -/
def healthCriticalTXACtx : TravelExperienceAgent.Context :=
  { tripId := "trip_vn_001"
    userId := "user_001"
    date := "2026-02-21"
    trip := some demoTrip
    wellnessProfile := none
    currentItinerary := demoItinerary
    travelerFeedback := some
      { energyRating := some 3, sleepQuality := some 2
        satisfactionScore := none, notes := none }
    weather := none
    budgetStatus := { totalSpent := 12000, remainingBudget := 38000 } }

/-- Orchestrator context on a quiet recovery day: every agent stays
low-key and the nominal branch is taken. -/
def nominalTXACtx : TravelExperienceAgent.Context :=
  { tripId := "trip_vn_001"
    userId := "user_001"
    date := "2026-02-24"
    trip := some demoTrip
    wellnessProfile := none
    currentItinerary :=
      { date := "2026-02-24"
        tripId := "trip_vn_001"
        location := "Da Nang, Vietnam"
        primaryIntent := "relax"
        schedule := { morning := none, afternoon := none } }
    travelerFeedback := some
      { energyRating := some 4, sleepQuality := some 4
        satisfactionScore := none, notes := none }
    weather := none
    budgetStatus := { totalSpent := 12000, remainingBudget := 38000 } }

/-- Orchestrator context whose `trip` key holds an undefined value: the
presence check passes and the budget fan-out call faults. -/
def undefinedTripTXACtx : TravelExperienceAgent.Context :=
  { tripId := "trip_vn_001"
    userId := "user_001"
    date := "2026-02-21"
    trip := none
    wellnessProfile := none
    currentItinerary := demoItinerary
    travelerFeedback := none
    weather := none
    budgetStatus := { totalSpent := 12000, remainingBudget := 38000 } }

/-- Context bag whose required keys are present but carry undefined or null
values. -/
def undefinedKeysBag : List (String × SVal) :=
  [("tripId", SVal.undef), ("userId", SVal.null),
   ("date", SVal.str "2026-02-20"), ("consecutiveActiveDays", SVal.undef)]

end ActiveTravel

namespace ActiveTravel

/-- Per-branch output contract of the specialist agents: the priority is one
of the four levels, and a high or critical priority carries a required
approval. -/
def specialistInvariant (r : AgentRecommendation) : Prop :=
  (r.priority = .low ∨ r.priority = .medium ∨ r.priority = .high ∨ r.priority = .critical) ∧
  ((r.priority = .high ∨ r.priority = .critical) → r.approvalRequired = true)

/-- Every priority value is one of the four declared levels. -/
theorem priority_eq_one_of (p : Priority) :
    p = .low ∨ p = .medium ∨ p = .high ∨ p = .critical := by
  cases p <;> simp

/-- The invariant holds of a constructed recommendation whenever its
priority/approval pair is consistent. -/
theorem specialistInvariant_mk (d ra : String) (sig : List (String × SVal))
    (acts : List String) (ap : Bool) (p : Priority)
    (hp : (p = .high ∨ p = .critical) → ap = true) :
    specialistInvariant (createRecommendation d ra sig acts ap p) :=
  ⟨priority_eq_one_of p, hp⟩

/-- C2: Determinism — each agent analysis, including the orchestrator, is a
pure function of its context: calling it twice on the same context yields
the identical recommendation record (same decision, rationale,
inputSignals, outputActions, approvalRequired, priority), with no
dependence on randomness, time, or external calls. -/
theorem agents_deterministic :
    ∀ (c : TravelExperienceAgent.Context) (h : HealthRecoveryAgent.Context)
      (g : GolfOperationsAgent.Context) (b : BudgetControlAgent.Context)
      (t : TransportLogisticsAgent.Context),
      TravelExperienceAgent.analyze c = TravelExperienceAgent.analyze c ∧
      HealthRecoveryAgent.analyze h = HealthRecoveryAgent.analyze h ∧
      GolfOperationsAgent.analyze g = GolfOperationsAgent.analyze g ∧
      BudgetControlAgent.analyze b = BudgetControlAgent.analyze b ∧
      TransportLogisticsAgent.analyze t = TransportLogisticsAgent.analyze t :=
  fun _ _ _ _ _ => ⟨rfl, rfl, rfl, rfl, rfl⟩

/-- C3: Priority/approval invariant — every recommendation produced by any
of the four specialist agents has a priority among low, medium, high,
critical, and in every branch a high or critical priority comes with
approvalRequired set to true. -/
theorem specialist_priority_approval_invariant :
    ∀ (h : HealthRecoveryAgent.Context) (g : GolfOperationsAgent.Context)
      (b : BudgetControlAgent.Context) (t : TransportLogisticsAgent.Context),
      specialistInvariant (HealthRecoveryAgent.analyze h) ∧
      specialistInvariant (GolfOperationsAgent.analyze g) ∧
      specialistInvariant (BudgetControlAgent.analyze b) ∧
      specialistInvariant (TransportLogisticsAgent.analyze t) := by
  intro h g b t
  refine ⟨?_, ?_, ?_, ?_⟩
  · simp only [HealthRecoveryAgent.analyze]
    split
    · exact specialistInvariant_mk _ _ _ _ _ _ (by decide)
    split
    · exact specialistInvariant_mk _ _ _ _ _ _ (by decide)
    split
    · exact specialistInvariant_mk _ _ _ _ _ _ (by decide)
    · exact specialistInvariant_mk _ _ _ _ _ _ (by decide)
  · simp only [GolfOperationsAgent.analyze]
    split
    · exact specialistInvariant_mk _ _ _ _ _ _ (by decide)
    split
    · exact specialistInvariant_mk _ _ _ _ _ _ (by decide)
    split
    · exact specialistInvariant_mk _ _ _ _ _ _ (by decide)
    · simp only [GolfOperationsAgent.recommendOptimalCourse]
      split
      · exact specialistInvariant_mk _ _ _ _ _ _ (by decide)
      · exact specialistInvariant_mk _ _ _ _ _ _ (by decide)
  · simp only [BudgetControlAgent.analyze]
    split
    · exact specialistInvariant_mk _ _ _ _ _ _ (by decide)
    split
    · exact specialistInvariant_mk _ _ _ _ _ _ (by decide)
    · split
      · exact specialistInvariant_mk _ _ _ _ _ _ (by decide)
      · exact specialistInvariant_mk _ _ _ _ _ _ (by decide)
  · simp only [TransportLogisticsAgent.analyze]
    split
    · exact specialistInvariant_mk _ _ _ _ _ _ (by decide)
    split
    · exact specialistInvariant_mk _ _ _ _ _ _ (by decide)
    split
    · exact specialistInvariant_mk _ _ _ _ _ _ (by decide)
    · exact specialistInvariant_mk _ _ _ _ _ _ (by decide)

/-- Witness for C3: on a concrete moderation context the health agent
produces a high-priority branch, and the invariant instantiated there
yields the required approval. -/
theorem specialist_priority_approval_witness :
    (HealthRecoveryAgent.analyze moderationHealthCtx).approvalRequired = true :=
  (specialist_priority_approval_invariant moderationHealthCtx bystanderGolfCtx
    bystanderBudgetCtx bystanderTransportCtx).1.2 (Or.inl (by decide))

/-- C6: Golf location gate — whenever the location contains none of the
recognized Vietnam city substrings (case-insensitively), the golf agent
returns a low-priority recommendation with no output actions, regardless of
every other input. -/
theorem golf_location_gate (ctx : GolfOperationsAgent.Context)
    (hloc : ∀ city ∈ (["hanoi", "da nang", "hoi an", "ho chi minh", "saigon"] : List String),
      strIncludes (strToLower ctx.location) city = false) :
    (GolfOperationsAgent.analyze ctx).priority = Priority.low ∧
    (GolfOperationsAgent.analyze ctx).outputActions = [] := by
  have hgate : GolfOperationsAgent.isVietnamLocation ctx.location = false := by
    unfold GolfOperationsAgent.isVietnamLocation
    rw [List.any_eq_false]
    intro city hcity
    simp [hloc city hcity]
  unfold GolfOperationsAgent.analyze
  rw [hgate]
  exact ⟨rfl, rfl⟩

/-- Witness for C6: a Kyoto location with skip- and substitution-triggering
inputs still yields the low-priority, action-free gate result. -/
theorem golf_location_gate_witness :
    (GolfOperationsAgent.analyze outsideVietnamCtx).priority = Priority.low ∧
    (GolfOperationsAgent.analyze outsideVietnamCtx).outputActions = [] :=
  golf_location_gate outsideVietnamCtx (by decide)

/-- C8: Health full-rest-day rule — whenever the sleep quality is present,
in range and below 3, or the energy rating is present, in range and below
2, or there are at least 5 consecutive active days, the health agent
returns the force-full-rest-day recommendation with critical priority and
required approval. -/
theorem health_full_rest_day_rule (ctx : HealthRecoveryAgent.Context)
    (htrigger :
      (∃ s, ctx.sleepQuality = some s ∧ 1 ≤ s ∧ s ≤ 5 ∧ s < 3) ∨
      (∃ e, ctx.energyRating = some e ∧ 1 ≤ e ∧ e ≤ 5 ∧ e < 2) ∨
      5 ≤ ctx.consecutiveActiveDays) :
    (HealthRecoveryAgent.analyze ctx).decision =
      "Cancel all planned activities - full rest day required" ∧
    (HealthRecoveryAgent.analyze ctx).priority = Priority.critical ∧
    (HealthRecoveryAgent.analyze ctx).approvalRequired = true := by
  have hcond : HealthRecoveryAgent.requiresFullRestDay
      (HealthRecoveryAgent.collectSignals ctx) = true := by
    unfold HealthRecoveryAgent.requiresFullRestDay HealthRecoveryAgent.collectSignals
    rcases htrigger with ⟨s, hs, h1, _, h3⟩ | ⟨e, he, h1, _, h2⟩ | h5
    · rw [hs]
      simp only [numTruthy, optLt, Bool.or_eq_true, Bool.and_eq_true, decide_eq_true_eq]
      exact Or.inl (Or.inl ⟨ne_of_gt (lt_of_lt_of_le zero_lt_one h1), h3⟩)
    · rw [he]
      simp only [numTruthy, optLt, Bool.or_eq_true, Bool.and_eq_true, decide_eq_true_eq]
      exact Or.inl (Or.inr ⟨ne_of_gt (lt_of_lt_of_le zero_lt_one h1), h2⟩)
    · simp only [numTruthy, optLt, Bool.or_eq_true, Bool.and_eq_true, decide_eq_true_eq]
      exact Or.inr h5
  simp only [HealthRecoveryAgent.analyze, hcond, if_true]
  exact ⟨rfl, rfl, rfl⟩

/-- Witness for C8: Scenario 1 of the spec (sleep 2, energy 3, four active
days) takes the sleep-quality disjunct and yields the full-rest-day
outcome. -/
theorem health_full_rest_day_witness :
    (HealthRecoveryAgent.analyze scenario1Ctx).decision =
      "Cancel all planned activities - full rest day required" ∧
    (HealthRecoveryAgent.analyze scenario1Ctx).priority = Priority.critical ∧
    (HealthRecoveryAgent.analyze scenario1Ctx).approvalRequired = true :=
  health_full_rest_day_rule scenario1Ctx
    (Or.inl ⟨2, rfl, by norm_num, by norm_num, by norm_num⟩)

/-- Buffer assessments never report an insufficient buffer (the placeholder
of the source). -/
theorem assessBuffers_sufficient (tc : TransportLogisticsAgent.Context) :
    (TransportLogisticsAgent.assessBuffers tc).insufficient = false := by
  unfold TransportLogisticsAgent.assessBuffers
  split
  · split <;> rfl
  · rfl

/-- The transport agent only ever returns low or medium priority. -/
theorem transport_priority_low_or_medium (tc : TransportLogisticsAgent.Context) :
    (TransportLogisticsAgent.analyze tc).priority = Priority.low ∨
    (TransportLogisticsAgent.analyze tc).priority = Priority.medium := by
  simp only [TransportLogisticsAgent.analyze]
  split
  · exact Or.inl rfl
  split
  · rename_i hins
    rw [assessBuffers_sufficient tc] at hins
    cases hins
  split
  · exact Or.inr rfl
  · exact Or.inl rfl

/-- C9: the transport buffer check never fails — every buffer assessment
reports sufficient buffer, so the insufficient-buffer branch is
unreachable, the transport agent never returns a high or critical
priority, and the orchestrator never takes its transport-override rule. -/
theorem transport_buffer_never_insufficient :
    (∀ tc : TransportLogisticsAgent.Context,
      (TransportLogisticsAgent.assessBuffers tc).insufficient = false ∧
      (TransportLogisticsAgent.analyze tc).priority ≠ Priority.high ∧
      (TransportLogisticsAgent.analyze tc).priority ≠ Priority.critical) ∧
    (∀ (ctx : TravelExperienceAgent.Context) (r : AgentRecommendation),
      TravelExperienceAgent.analyze ctx = Except.ok r →
      r.decision ≠ "Logistics priority override") := by
  constructor
  · intro tc
    refine ⟨assessBuffers_sufficient tc, ?_, ?_⟩ <;>
      rcases transport_priority_low_or_medium tc with hp | hp <;> simp [hp]
  · intro ctx r hok hdec
    rcases htrip : ctx.trip with _ | trip
    · unfold TravelExperienceAgent.analyze TravelExperienceAgent.getHealthRecommendation
        TravelExperienceAgent.getGolfRecommendation TravelExperienceAgent.getBudgetRecommendation
        TravelExperienceAgent.getTransportRecommendation at hok
      rw [htrip] at hok
      exact Except.noConfusion hok
    · have hr : r = TravelExperienceAgent.applyCoordinationRules
          (HealthRecoveryAgent.analyze (TravelExperienceAgent.healthContext ctx))
          (GolfOperationsAgent.analyze (TravelExperienceAgent.golfContext ctx))
          (BudgetControlAgent.analyze (TravelExperienceAgent.budgetContext ctx trip))
          (TransportLogisticsAgent.analyze (TravelExperienceAgent.transportContext ctx)) ctx := by
        unfold TravelExperienceAgent.analyze TravelExperienceAgent.getHealthRecommendation
          TravelExperienceAgent.getGolfRecommendation TravelExperienceAgent.getBudgetRecommendation
          TravelExperienceAgent.getTransportRecommendation at hok
        rw [htrip] at hok
        exact (Except.ok.inj hok).symm
      rw [hr] at hdec
      unfold TravelExperienceAgent.applyCoordinationRules at hdec
      split at hdec
      · exact (by decide : ("Health priority override" : String) ≠
          "Logistics priority override") hdec
      split at hdec
      · rename_i htcond
        rcases transport_priority_low_or_medium (TravelExperienceAgent.transportContext ctx) with hp | hp <;>
          rw [hp] at htcond <;> exact absurd htcond (by decide)
      split at hdec
      · exact (by decide : ("Budget control intervention" : String) ≠
          "Logistics priority override") hdec
      split at hdec
      · exact (by decide : ("Golf activity adjustment recommended" : String) ≠
          "Logistics priority override") hdec
      · exact (by decide : ("Proceed with planned itinerary" : String) ≠
          "Logistics priority override") hdec

/-- Witness for C9: on a concrete quiet-day orchestrator context the final
decision is not the transport override. -/
theorem transport_buffer_never_insufficient_witness :
    (TravelExperienceAgent.analyze nominalTXACtx).map (fun r => r.decision) ≠
      Except.ok "Logistics priority override" := by
  intro hmap
  rcases hcase : TravelExperienceAgent.analyze nominalTXACtx with e | r
  · rw [hcase] at hmap
    exact Except.noConfusion hmap
  · rw [hcase] at hmap
    simp only [Except.map, Except.ok.injEq] at hmap
    exact transport_buffer_never_insufficient.2 nominalTXACtx r hcase hmap

/-- Counterexample for C1: on a context where the health agent is critical,
the final decision text is the fixed header, not the health decision text
verbatim. -/
theorem txa_health_override_not_verbatim :
    (HealthRecoveryAgent.analyze (TravelExperienceAgent.healthContext healthCriticalTXACtx)).priority
      = Priority.critical ∧
    (HealthRecoveryAgent.analyze (TravelExperienceAgent.healthContext healthCriticalTXACtx)).decision
      = "Cancel all planned activities - full rest day required" ∧
    (TravelExperienceAgent.analyze healthCriticalTXACtx).map (fun r => r.decision)
      = Except.ok "Health priority override" ∧
    ("Health priority override" : String) ≠
      "Cancel all planned activities - full rest day required" :=
  ⟨rfl, rfl, rfl, by decide⟩

/-- C1 (amended): when the health recommendation is critical or high, the
orchestrator returns the fixed decision header, quotes the health rationale
inside the final rationale, adopts the health output actions followed by an
empty separator and the deferral note, and preserves the health approval
flag and priority — regardless of what the golf, budget and transport
agents return. -/
theorem txa_health_override_adopts_fixed_header
    (ctx : TravelExperienceAgent.Context) (trip : Trip)
    (htrip : ctx.trip = some trip)
    (hpri : (HealthRecoveryAgent.analyze (TravelExperienceAgent.healthContext ctx)).priority
        = Priority.critical ∨
      (HealthRecoveryAgent.analyze (TravelExperienceAgent.healthContext ctx)).priority
        = Priority.high) :
    ∃ final, TravelExperienceAgent.analyze ctx = Except.ok final ∧
      final.decision = "Health priority override" ∧
      final.rationale =
        "Health & recovery agent recommends intervention. Health rationale: " ++
          (HealthRecoveryAgent.analyze (TravelExperienceAgent.healthContext ctx)).rationale ∧
      final.outputActions =
        (HealthRecoveryAgent.analyze (TravelExperienceAgent.healthContext ctx)).outputActions ++
          ["", "Other agent recommendations deferred to prioritize well-being."] ∧
      final.approvalRequired =
        (HealthRecoveryAgent.analyze (TravelExperienceAgent.healthContext ctx)).approvalRequired ∧
      final.priority =
        (HealthRecoveryAgent.analyze (TravelExperienceAgent.healthContext ctx)).priority := by
  have hok : TravelExperienceAgent.analyze ctx = Except.ok
      (TravelExperienceAgent.applyCoordinationRules
        (HealthRecoveryAgent.analyze (TravelExperienceAgent.healthContext ctx))
        (GolfOperationsAgent.analyze (TravelExperienceAgent.golfContext ctx))
        (BudgetControlAgent.analyze (TravelExperienceAgent.budgetContext ctx trip))
        (TransportLogisticsAgent.analyze (TravelExperienceAgent.transportContext ctx)) ctx) := by
    unfold TravelExperienceAgent.analyze TravelExperienceAgent.getHealthRecommendation
      TravelExperienceAgent.getGolfRecommendation TravelExperienceAgent.getBudgetRecommendation
      TravelExperienceAgent.getTransportRecommendation
    rw [htrip]
    rfl
  refine ⟨_, hok, ?_, ?_, ?_, ?_, ?_⟩ <;>
    · unfold TravelExperienceAgent.applyCoordinationRules
      rcases hpri with hp | hp <;> rw [hp] <;> rfl

/-- Witness for C1: the amended override shape instantiated on the concrete
critical-health orchestrator context. -/
theorem txa_health_override_witness :
    ∃ final, TravelExperienceAgent.analyze healthCriticalTXACtx = Except.ok final ∧
      final.decision = "Health priority override" ∧
      final.rationale =
        "Health & recovery agent recommends intervention. Health rationale: " ++
          (HealthRecoveryAgent.analyze
            (TravelExperienceAgent.healthContext healthCriticalTXACtx)).rationale ∧
      final.outputActions =
        (HealthRecoveryAgent.analyze
          (TravelExperienceAgent.healthContext healthCriticalTXACtx)).outputActions ++
          ["", "Other agent recommendations deferred to prioritize well-being."] ∧
      final.approvalRequired =
        (HealthRecoveryAgent.analyze
          (TravelExperienceAgent.healthContext healthCriticalTXACtx)).approvalRequired ∧
      final.priority =
        (HealthRecoveryAgent.analyze
          (TravelExperienceAgent.healthContext healthCriticalTXACtx)).priority :=
  txa_health_override_adopts_fixed_header healthCriticalTXACtx demoTrip rfl (Or.inl rfl)

/-- C7: Aggregation failure — whenever one of the four specialist calls of
the orchestrator fan-out fails, the whole orchestrator analysis fails with
that error, and no recommendation built from the surviving agents is
returned. -/
theorem txa_aggregation_failure_propagates
    (ctx : TravelExperienceAgent.Context) (e : String)
    (hfail : TravelExperienceAgent.getHealthRecommendation ctx = Except.error e ∨
      TravelExperienceAgent.getGolfRecommendation ctx = Except.error e ∨
      TravelExperienceAgent.getBudgetRecommendation ctx = Except.error e ∨
      TravelExperienceAgent.getTransportRecommendation ctx = Except.error e) :
    TravelExperienceAgent.analyze ctx = Except.error e ∧
    ∀ r, TravelExperienceAgent.analyze ctx ≠ Except.ok r := by
  have herr : TravelExperienceAgent.analyze ctx = Except.error e := by
    rcases hfail with hf | hf | hf | hf
    · exact Except.noConfusion hf
    · exact Except.noConfusion hf
    · unfold TravelExperienceAgent.getBudgetRecommendation at hf
      rcases htrip : ctx.trip with _ | trip
      · rw [htrip] at hf
        injection hf with hmsg
        unfold TravelExperienceAgent.analyze TravelExperienceAgent.getHealthRecommendation
          TravelExperienceAgent.getGolfRecommendation TravelExperienceAgent.getBudgetRecommendation
          TravelExperienceAgent.getTransportRecommendation
        rw [htrip, hmsg]
        rfl
      · rw [htrip] at hf
        exact Except.noConfusion hf
    · exact Except.noConfusion hf
  refine ⟨herr, ?_⟩
  intro r hok
  rw [herr] at hok
  exact Except.noConfusion hok

/-- Witness for C7: with an undefined `trip` value the budget fan-out call
fails with a TypeError and the orchestrator analysis fails with the same
error. -/
theorem txa_aggregation_failure_witness :
    TravelExperienceAgent.getBudgetRecommendation undefinedTripTXACtx =
      Except.error "TypeError: Cannot read properties of undefined (reading budget)" ∧
    TravelExperienceAgent.analyze undefinedTripTXACtx =
      Except.error "TypeError: Cannot read properties of undefined (reading budget)" :=
  ⟨rfl, (txa_aggregation_failure_propagates undefinedTripTXACtx _
    (Or.inr (Or.inr (Or.inl rfl)))).1⟩

/-- C10: required-field validation checks key presence only — validation
succeeds exactly when every required field is present as a key of the
context, whatever its value (undefined and null included), and otherwise
fails with an error naming the agent and the missing fields. -/
theorem validateContext_checks_key_presence (agentName : String)
    (bag : List (String × SVal)) (required : List String) :
    ((validateContext agentName bag required = Except.ok ()) ↔
      ∀ f ∈ required, ∃ v, (f, v) ∈ bag) ∧
    ((¬ ∀ f ∈ required, ∃ v, (f, v) ∈ bag) →
      validateContext agentName bag required =
        Except.error (agentName ++ " missing required context fields: " ++
          String.intercalate ", " (required.filter (fun f => !(hasKey bag f))))) := by
  have hkey : ∀ f, hasKey bag f = true ↔ ∃ v, (f, v) ∈ bag := by
    intro f
    unfold hasKey
    rw [List.any_eq_true]
    constructor
    · rintro ⟨⟨k, v⟩, hmem, hk⟩
      rw [beq_iff_eq] at hk
      subst hk
      exact ⟨v, hmem⟩
    · rintro ⟨v, hv⟩
      exact ⟨(f, v), hv, by simp⟩
  have hmiss : (required.filter (fun f => !(hasKey bag f)) = []) ↔
      ∀ f ∈ required, ∃ v, (f, v) ∈ bag := by
    rw [List.filter_eq_nil_iff]
    constructor
    · intro hall f hf
      have hb := hall f hf
      rw [Bool.not_eq_true, Bool.not_eq_false'] at hb
      exact (hkey f).mp hb
    · intro hall f hf
      rw [Bool.not_eq_true, Bool.not_eq_false']
      exact (hkey f).mpr (hall f hf)
  unfold validateContext
  by_cases hc : required.filter (fun f => !(hasKey bag f)) = []
  · rw [hc]
    refine ⟨?_, ?_⟩
    · simp only [List.length_nil, gt_iff_lt, lt_self_iff_false, if_false]
      exact ⟨fun _ => hmiss.mp hc, fun _ => by simp⟩
    · intro habs
      exact absurd (hmiss.mp hc) habs
  · have hlen : (required.filter (fun f => !(hasKey bag f))).length > 0 := by
      rcases hfe : required.filter (fun f => !(hasKey bag f)) with _ | ⟨x, xs⟩
      · exact absurd hfe hc
      · simp
    refine ⟨?_, ?_⟩
    · rw [if_pos hlen]
      constructor
      · intro habs
        exact Except.noConfusion habs
      · intro hall
        exact absurd (hmiss.mpr hall) hc
    · intro _
      rw [if_pos hlen]

/-- Witness for C10: a context whose required keys are present but hold
undefined or null values passes validation without error. -/
theorem validateContext_checks_key_presence_witness :
    validateContext "Health & Recovery Agent" undefinedKeysBag
      ["tripId", "userId", "date", "consecutiveActiveDays"] = Except.ok () := by
  apply (validateContext_checks_key_presence "Health & Recovery Agent"
    undefinedKeysBag ["tripId", "userId", "date", "consecutiveActiveDays"]).1.mpr
  intro f hf
  simp only [List.mem_cons, List.not_mem_nil, or_false] at hf
  rcases hf with rfl | rfl | rfl | rfl
  · exact ⟨SVal.undef, List.Mem.head _⟩
  · exact ⟨SVal.null, List.Mem.tail _ (List.Mem.head _)⟩
  · exact ⟨SVal.str "2026-02-20", List.Mem.tail _ (List.Mem.tail _ (List.Mem.head _))⟩
  · exact ⟨SVal.undef,
      List.Mem.tail _ (List.Mem.tail _ (List.Mem.tail _ (List.Mem.head _)))⟩

/-- Counterexample for C4: on the Scenario 2 inputs (Da Nang, temperature
34, humidity 78, Ba Na Hills available) the golf agent does not substitute:
it proceeds with golf at Ba Na Hills at medium priority, because 34 is not
above 35 and 78 is not above 80. -/
theorem golf_scenario2_no_substitution :
    (GolfOperationsAgent.analyze scenario2Ctx).decision =
      "Proceed with golf at Ba Na Hills Golf Club" ∧
    (GolfOperationsAgent.analyze scenario2Ctx).priority = Priority.medium ∧
    (GolfOperationsAgent.analyze scenario2Ctx).decision ≠
      "Substitute golf course due to weather" ∧
    (GolfOperationsAgent.analyze scenario2Ctx).priority ≠ Priority.high := by
  refine ⟨rfl, rfl, ?_, ?_⟩ <;> decide

/-- C4 (amended): inside the Vietnam gate with the skip rule not firing and
a present forecast, the substitution recommendation is produced exactly
when rainfall exceeds 10, or temperature exceeds 35, or temperature exceeds
32 with humidity above 80; otherwise the agent falls through to the
optimal-course recommendation.  In particular Scenario 2 (34 degrees, 78
percent humidity) falls through, and the weather-substitution
recommendation carries high priority and required approval. -/
theorem golf_weather_substitution_rule (ctx : GolfOperationsAgent.Context)
    (w : GolfWeather)
    (hviet : GolfOperationsAgent.isVietnamLocation ctx.location = true)
    (hskip : GolfOperationsAgent.shouldSkipGolf (GolfOperationsAgent.collectSignals ctx) = false)
    (hw : ctx.weatherForecast = some w) :
    (GolfOperationsAgent.shouldSubstituteCourse (GolfOperationsAgent.collectSignals ctx) = true ↔
      ((∃ r, w.rainfall = some r ∧ r > 10) ∨ w.temperature > 35 ∨
        (w.temperature > 32 ∧ w.humidity > 80))) ∧
    (((∃ r, w.rainfall = some r ∧ r > 10) ∨ w.temperature > 35 ∨
        (w.temperature > 32 ∧ w.humidity > 80)) →
      GolfOperationsAgent.analyze ctx =
        GolfOperationsAgent.recommendCourseSubstitution
          (GolfOperationsAgent.collectSignals ctx) ctx ∧
      (GolfOperationsAgent.analyze ctx).decision = "Substitute golf course due to weather" ∧
      (GolfOperationsAgent.analyze ctx).priority = Priority.high ∧
      (GolfOperationsAgent.analyze ctx).approvalRequired = true) ∧
    ((¬((∃ r, w.rainfall = some r ∧ r > 10) ∨ w.temperature > 35 ∨
        (w.temperature > 32 ∧ w.humidity > 80))) →
      GolfOperationsAgent.analyze ctx =
        GolfOperationsAgent.recommendOptimalCourse
          (GolfOperationsAgent.collectSignals ctx) ctx) := by
  have hsw : (GolfOperationsAgent.collectSignals ctx).weather = some w := by
    simp [GolfOperationsAgent.collectSignals, hw]
  have hbody : GolfOperationsAgent.shouldSubstituteCourse
      (GolfOperationsAgent.collectSignals ctx) =
      ((match w.rainfall with
        | some r => decide (r ≠ 0) && decide (r > 10)
        | none => false) ||
        decide (w.temperature > 35) ||
        (decide (w.temperature > 32) && decide (w.humidity > 80))) := by
    unfold GolfOperationsAgent.shouldSubstituteCourse
    rw [hsw]
  have hiff : GolfOperationsAgent.shouldSubstituteCourse
      (GolfOperationsAgent.collectSignals ctx) = true ↔
      ((∃ r, w.rainfall = some r ∧ r > 10) ∨ w.temperature > 35 ∨
        (w.temperature > 32 ∧ w.humidity > 80)) := by
    rw [hbody]
    rcases hr : w.rainfall with _ | r
    · simp
    · simp only [Bool.or_eq_true, Bool.and_eq_true, decide_eq_true_eq, Option.some.injEq]
      constructor
      · rintro ((⟨_, h10⟩ | h) | h)
        · exact Or.inl ⟨r, rfl, h10⟩
        · exact Or.inr (Or.inl h)
        · exact Or.inr (Or.inr h)
      · rintro (⟨r0, hr0, h10⟩ | h | h)
        · cases hr0
          exact Or.inl (Or.inl ⟨ne_of_gt (lt_trans (by norm_num) h10), h10⟩)
        · exact Or.inl (Or.inr h)
        · exact Or.inr h
  refine ⟨hiff, ?_, ?_⟩
  · intro htrig
    have hsub := hiff.mpr htrig
    have hres : GolfOperationsAgent.analyze ctx =
        GolfOperationsAgent.recommendCourseSubstitution
          (GolfOperationsAgent.collectSignals ctx) ctx := by
      simp only [GolfOperationsAgent.analyze, hviet, hskip, hsub, Bool.not_true,
        Bool.false_eq_true, if_false, if_true]
    exact ⟨hres, by rw [hres]; rfl, by rw [hres]; rfl, by rw [hres]; rfl⟩
  · intro hntrig
    have hsub : GolfOperationsAgent.shouldSubstituteCourse
        (GolfOperationsAgent.collectSignals ctx) = false := by
      cases hbool : GolfOperationsAgent.shouldSubstituteCourse
          (GolfOperationsAgent.collectSignals ctx) with
      | true => exact absurd (hiff.mp hbool) hntrig
      | false => rfl
    simp only [GolfOperationsAgent.analyze, hviet, hskip, hsub, Bool.not_true,
      Bool.false_eq_true, if_false, if_true]

/-- Witness for C4: raising the temperature to 36 degrees makes the
substitution rule fire, yielding the high-priority substitution decision
with the Ba Na Hills alternative. -/
theorem golf_weather_substitution_witness :
    (GolfOperationsAgent.analyze hotWeatherCtx).decision =
      "Substitute golf course due to weather" ∧
    (GolfOperationsAgent.analyze hotWeatherCtx).priority = Priority.high ∧
    (GolfOperationsAgent.analyze hotWeatherCtx).outputActions =
      ["Substitute to Ba Na Hills Golf Club (cooler mountain climate)",
       "Earlier tee time (before 8am)"] := by
  have h := (golf_weather_substitution_rule hotWeatherCtx hotWeather
    (by decide) (by decide) rfl).2.1 (Or.inr (Or.inl (by decide)))
  exact ⟨h.2.1, h.2.2.1, by rw [h.1]; rfl⟩

/-- Branch selection of the budget agent on a single-category context: the
decision is taken by comparing the guarded variance percentage against the
two fixed thresholds. -/
theorem budget_single_branch (p a : ℚ) :
    BudgetControlAgent.analyze (mkBudgetCtx p a) =
      (if (if p > 0 then (a - p) / p else 0) > BudgetControlAgent.CRITICAL_THRESHOLD then
        BudgetControlAgent.recommendCriticalAction
          [{ category := "golf", planned := p, actual := a, variance := a - p
             variancePercent := if p > 0 then (a - p) / p else 0 }]
          (BudgetControlAgent.collectSignals (mkBudgetCtx p a)) (mkBudgetCtx p a)
      else if (if p > 0 then (a - p) / p else 0) > BudgetControlAgent.ALERT_THRESHOLD then
        BudgetControlAgent.recommendBudgetAdjustment
          [{ category := "golf", planned := p, actual := a, variance := a - p
             variancePercent := if p > 0 then (a - p) / p else 0 }]
          (BudgetControlAgent.collectSignals (mkBudgetCtx p a)) (mkBudgetCtx p a)
      else
        BudgetControlAgent.recommendOnTrack
          (BudgetControlAgent.collectSignals (mkBudgetCtx p a))
          [{ category := "golf", planned := p, actual := a, variance := a - p
             variancePercent := if p > 0 then (a - p) / p else 0 }]) := by
  by_cases h1 : (if p > 0 then (a - p) / p else 0) > BudgetControlAgent.CRITICAL_THRESHOLD
  · rw [if_pos h1]
    unfold BudgetControlAgent.analyze BudgetControlAgent.findCriticalOverruns
      BudgetControlAgent.calculateVariances
    simp [mkBudgetCtx, h1]
  · rw [if_neg h1]
    by_cases h2 : (if p > 0 then (a - p) / p else 0) > BudgetControlAgent.ALERT_THRESHOLD
    · rw [if_pos h2]
      unfold BudgetControlAgent.analyze BudgetControlAgent.findCriticalOverruns
        BudgetControlAgent.findOverruns BudgetControlAgent.calculateVariances
      simp [mkBudgetCtx, h1, h2]
    · rw [if_neg h2]
      unfold BudgetControlAgent.analyze BudgetControlAgent.findCriticalOverruns
        BudgetControlAgent.findOverruns BudgetControlAgent.calculateVariances
      simp [mkBudgetCtx, h1, h2]

/-- C5: Budget threshold boundaries are strict — on a single-category
context the variance percentage is the guarded quotient (zero when the
planned amount is zero, with no division performed), the critical decision
is produced exactly when it strictly exceeds 20/100, the alert decision
exactly when it strictly exceeds 10/100 without exceeding 20/100, and a
zero planned amount never triggers an overrun. -/
theorem budget_threshold_boundaries (p a : ℚ) :
    ((BudgetControlAgent.calculateVariances (mkBudgetCtx p a)).map
      (fun v => v.variancePercent) = [if p > 0 then (a - p) / p else 0]) ∧
    (p > 0 →
      (((BudgetControlAgent.analyze (mkBudgetCtx p a)).decision =
          "CRITICAL: Budget overrun detected") ↔ (a - p) / p > 20 / 100) ∧
      (((BudgetControlAgent.analyze (mkBudgetCtx p a)).decision =
          "Budget variance detected - adjustment recommended") ↔
        ((a - p) / p > 10 / 100 ∧ ¬((a - p) / p > 20 / 100)))) ∧
    (p = 0 →
      (BudgetControlAgent.analyze (mkBudgetCtx p a)).priority = Priority.low ∧
      (BudgetControlAgent.analyze (mkBudgetCtx p a)).decision =
        "Budget on track - no adjustments needed") := by
  refine ⟨rfl, ?_, ?_⟩
  · intro hp
    have hb := budget_single_branch p a
    rw [if_pos hp] at hb
    by_cases hcrit : (a - p) / p > BudgetControlAgent.CRITICAL_THRESHOLD
    · rw [if_pos hcrit] at hb
      constructor
      · exact ⟨fun _ => hcrit, fun _ => by rw [hb]; rfl⟩
      · constructor
        · intro h
          rw [hb] at h
          exact ((by decide : ("CRITICAL: Budget overrun detected" : String) ≠
            "Budget variance detected - adjustment recommended") h).elim
        · rintro ⟨_, hn⟩
          exact absurd hcrit hn
    · rw [if_neg hcrit] at hb
      by_cases halert : (a - p) / p > BudgetControlAgent.ALERT_THRESHOLD
      · rw [if_pos halert] at hb
        constructor
        · constructor
          · intro h
            rw [hb] at h
            exact ((by decide : ("Budget variance detected - adjustment recommended" : String) ≠
              "CRITICAL: Budget overrun detected") h).elim
          · intro hx
            exact absurd hx hcrit
        · exact ⟨fun _ => ⟨halert, hcrit⟩, fun _ => by rw [hb]; rfl⟩
      · rw [if_neg halert] at hb
        constructor
        · constructor
          · intro h
            rw [hb] at h
            exact ((by decide : ("Budget on track - no adjustments needed" : String) ≠
              "CRITICAL: Budget overrun detected") h).elim
          · intro hx
            exact absurd hx hcrit
        · constructor
          · intro h
            rw [hb] at h
            exact ((by decide : ("Budget on track - no adjustments needed" : String) ≠
              "Budget variance detected - adjustment recommended") h).elim
          · rintro ⟨hx, _⟩
            exact absurd hx halert
  · intro hp0
    subst hp0
    have hb := budget_single_branch 0 a
    rw [if_neg (by norm_num : ¬((0:ℚ) > 0))] at hb
    rw [if_neg (by norm_num [BudgetControlAgent.CRITICAL_THRESHOLD] :
      ¬((0:ℚ) > BudgetControlAgent.CRITICAL_THRESHOLD))] at hb
    rw [if_neg (by norm_num [BudgetControlAgent.ALERT_THRESHOLD] :
      ¬((0:ℚ) > BudgetControlAgent.ALERT_THRESHOLD))] at hb
    rw [hb]
    exact ⟨rfl, rfl⟩

/-- Witness for C5: with planned 1000, an actual of 1201 is critical, 1200
(exactly 20 percent over) and 1101 are alerts, and 1100 (exactly 10 percent
over) is on track. -/
theorem budget_threshold_boundaries_witness :
    (0:ℚ) < 1000 ∧
    (BudgetControlAgent.analyze (mkBudgetCtx 1000 1201)).decision =
      "CRITICAL: Budget overrun detected" ∧
    (BudgetControlAgent.analyze (mkBudgetCtx 1000 1200)).decision =
      "Budget variance detected - adjustment recommended" ∧
    (BudgetControlAgent.analyze (mkBudgetCtx 1000 1101)).decision =
      "Budget variance detected - adjustment recommended" ∧
    (BudgetControlAgent.analyze (mkBudgetCtx 1000 1100)).decision =
      "Budget on track - no adjustments needed" := by
  refine ⟨by norm_num, ?_, ?_, ?_, ?_⟩
  · exact ((budget_threshold_boundaries 1000 1201).2.1 (by norm_num)).1.mpr (by norm_num)
  · exact ((budget_threshold_boundaries 1000 1200).2.1 (by norm_num)).2.mpr
      (by constructor <;> norm_num)
  · exact ((budget_threshold_boundaries 1000 1101).2.1 (by norm_num)).2.mpr
      (by constructor <;> norm_num)
  · have hb := budget_single_branch 1000 1100
    rw [if_pos (by norm_num : (1000:ℚ) > 0)] at hb
    rw [if_neg (by norm_num [BudgetControlAgent.CRITICAL_THRESHOLD] :
      ¬(((1100:ℚ) - 1000) / 1000 > BudgetControlAgent.CRITICAL_THRESHOLD))] at hb
    rw [if_neg (by norm_num [BudgetControlAgent.ALERT_THRESHOLD] :
      ¬(((1100:ℚ) - 1000) / 1000 > BudgetControlAgent.ALERT_THRESHOLD))] at hb
    rw [hb]
    rfl

end ActiveTravel
